import Mathlib

set_option maxRecDepth 8000
set_option linter.unusedVariables false

/-!
Shallow embedding of the interview-session core of the repository:
the files interactive_interview.py (InteractiveInterviewSystem) and
role_based_questions.py (RoleBasedQuestions, RoleBasedInterviewPhase).

Python strings are modelled as Lean String; machine behaviour that the
code relies on (str.lower, str.strip, substring membership, str.split,
list slicing) is reproduced by the helper functions below.  Calls to the
hosted language model (llm.invoke) are modelled as Except-valued oracle
parameters: Except.ok carries the text the model returned, Except.error
the exception the call raised.  random.choice and random.sample are
modelled by threading the random draw in as an explicit parameter.
Wall-clock timestamps are abstracted to the empty string.  The derived
read-only session_info snapshot attached to every response, and the
reset_interview helper, are not part of any claim and are omitted from
the response model.  Whitespace is the ASCII set space/tab/CR/LF of
Char.isWhitespace, which agrees with Python on every string this
development evaluates.
-/

/-- Python str.lower for the ASCII strings this system manipulates. -/
def pyLower (s : String) : String := String.mk (s.data.map Char.toLower)

/-- Python str.strip: drop leading and trailing whitespace. -/
def pyStrip (s : String) : String :=
  String.mk (((s.data.dropWhile Char.isWhitespace).reverse.dropWhile Char.isWhitespace).reverse)

/-- Check that the first character list begins the second. -/
def startsWithChars : List Char → List Char → Bool
  | [], _ => true
  | _ :: _, [] => false
  | a :: as, b :: bs => a == b && startsWithChars as bs

/-- Auxiliary scan for substring containment. -/
def containsAux (needle : List Char) : List Char → Bool
  | [] => needle.isEmpty
  | c :: rest => startsWithChars needle (c :: rest) || containsAux needle rest

/-- Python substring test: needle in haystack. -/
def strContains (haystack needle : String) : Bool :=
  containsAux needle.data haystack.data

/-- Count the maximal runs of non-whitespace characters; the flag says
whether the scan is inside such a run. -/
def countWordsAux : Bool → List Char → Nat
  | _, [] => 0
  | true, c :: rest =>
      if c.isWhitespace then countWordsAux false rest else countWordsAux true rest
  | false, c :: rest =>
      if c.isWhitespace then countWordsAux false rest else 1 + countWordsAux true rest

/-- Python len(s.split()): the number of whitespace-separated words. -/
def pyWordCount (s : String) : Nat := countWordsAux false s.data

/-- Model of random.choice: the ambient random draw is passed in as a
number and reduced modulo the list length. -/
def pyChoice (l : List String) (rng : Nat) : String :=
  l.getD (rng % l.length) ("")

/-- Python truthiness of an optional string: None and the empty string
are falsy, every other string is truthy. -/
def optTruthy : Option String → Bool
  | none => false
  | some s => !(s == "")

/-! ## Data model -/

/-- A project record from the parsed resume; only its title is read by
the interview core (project.get, interactive_interview.py line 255). -/
structure Project where
  title : Option String
deriving DecidableEq, Repr

/-- An experience record from the parsed resume; the fields read by the
employment filter and the question builder. -/
structure Exp where
  title : Option String
  company : Option String
  duration : Option String
deriving DecidableEq, Repr

/-- The parsed resume record handed to initialize_interview.  Absent
dictionary keys are modelled as none / the empty list. -/
structure ResumeData where
  name : Option String
  projects : List Project
  experience : List Exp
  skills : List String
deriving DecidableEq, Repr

/-- A planned resume-derived question as built by
_generate_question_plan. -/
structure PlannedQuestion where
  id : Nat
  qtype : String
  question : String
  expected_duration : String
  key_points : List String
  project_data : Option Project := none
  experience_data : Option Exp := none
deriving DecidableEq, Repr

/-- The analysis record produced by the effective _analyze_answer
definition (interactive_interview.py line 630; it shadows the earlier
LLM-calling definition of the same name at line 391). -/
structure AnalysisResult where
  needs_followup : Bool
  feedback : String
  answer_quality : String
deriving DecidableEq, Repr

/-- One entry of the session conversation history. -/
structure HistoryEntry where
  question : String
  answer : String
  timestamp : String
deriving DecidableEq, Repr

/-- One stored answer of the role-based technical phase. -/
structure RoleAnswer where
  question : String
  answer : String
  question_number : Nat
deriving DecidableEq, Repr

/-- RoleBasedInterviewPhase state (role_based_questions.py line 108). -/
structure RolePhase where
  role : String
  question_count : Nat
  questions : List String
  current_question_index : Nat
  answers : List RoleAnswer
  completed : Bool
deriving DecidableEq, Repr

/-- The question_stats counters of InteractiveInterviewSystem. -/
structure QuestionStats where
  total_questions : Nat
  questions_asked : Nat
  questions_answered : Nat
  questions_skipped : Nat
  resume_questions : Nat
  role_questions : Nat
deriving DecidableEq, Repr

/-- The interview_state strings of InteractiveInterviewSystem. -/
inductive InterviewState where
  | not_started
  | in_progress
  | role_based
  | completed
deriving DecidableEq, Repr

/-- The mutable state of an InteractiveInterviewSystem object. -/
structure Session where
  conversation_history : List HistoryEntry
  current_question_index : Nat
  planned_questions : List PlannedQuestion
  resume_data : ResumeData
  interview_state : InterviewState
  selected_role : Option String
  role_phase : Option RolePhase
  question_stats : QuestionStats
deriving DecidableEq, Repr

/-- The dictionary process_answer returns, as a sum over its three
shapes: a success payload, a completion payload, and the inactive-state
error payload. -/
inductive PAResult where
  | success (question : String) (is_followup : Bool)
      (positive_response : String) (analysis : String)
  | completedR (message : String)
  | errorR (message : String)
deriving DecidableEq, Repr

/-! ## role_based_questions.py -/

/-- The python_developer question bank. -/
def pythonQuestions : List String :=
  ["Explain the difference between deep copy and shallow copy in Python.",
   "What are decorators and how do you use them?",
   "Explain the concept of list comprehension.",
   "What is the use of the \x27with\x27 statement in Python?",
   "How do you manage virtual environments?",
   "What is the difference between \x27==\x27 and \x27is\x27 in Python?",
   "Explain the Global Interpreter Lock (GIL) in Python.",
   "What are lambda functions and when would you use them?",
   "How do you handle exceptions in Python?",
   "What is the difference between a list and a tuple?"]

/-- The java_developer question bank. -/
def javaQuestions : List String :=
  ["What is the difference between JDK, JRE, and JVM?",
   "Explain the concept of inheritance in Java.",
   "What are checked and unchecked exceptions?",
   "How does garbage collection work in Java?",
   "Explain the use of the \x27final\x27 keyword.",
   "What is the difference between abstract class and interface?",
   "Explain method overloading vs method overriding.",
   "What are access modifiers in Java?",
   "How does multithreading work in Java?",
   "What is the difference between String, StringBuilder, and StringBuffer?"]

/-- The mern_stack question bank. -/
def mernQuestions : List String :=
  ["What is the difference between state and props in React?",
   "How does MongoDB differ from SQL databases?",
   "Explain the lifecycle methods in React.",
   "What is Express.js and how does it work?",
   "How do you handle authentication in a MERN app?",
   "What are React Hooks and why are they useful?",
   "Explain the concept of middleware in Express.js.",
   "What is JSX and how does it work?",
   "How do you optimize MongoDB queries?",
   "What is the difference between server-side and client-side rendering?"]

/-- RoleBasedQuestions.ROLE_QUESTIONS. -/
def ROLE_QUESTIONS : List (String × List String) :=
  [("python_developer", pythonQuestions),
   ("java_developer", javaQuestions),
   ("mern_stack", mernQuestions)]

/-- RoleBasedQuestions.get_random_questions.  random.sample is modelled
by the sample parameter (population and draw count to chosen list); an
unknown role raises ValueError, modelled as Except.error. -/
def get_random_questions (sample : List String → Nat → List String)
    (role : String) (count : Nat) : Except String (List String) :=
  match ROLE_QUESTIONS.lookup role with
  | none => Except.error ("Role not found: " ++ role)
  | some questions =>
      if count ≥ questions.length then Except.ok questions
      else Except.ok (sample questions count)

/-- RoleBasedInterviewPhase construction (role_based_questions.py line
111): draws the question list once; propagates the unknown-role error. -/
def mkRolePhase (sample : List String → Nat → List String)
    (role : String) (question_count : Nat) : Except String RolePhase :=
  match get_random_questions sample role question_count with
  | Except.error e => Except.error e
  | Except.ok qs =>
      Except.ok { role := role, question_count := question_count,
                  questions := qs, current_question_index := 0,
                  answers := [], completed := false }

/-- RoleBasedInterviewPhase.get_current_question. -/
def get_current_question (p : RolePhase) : Option String :=
  if p.current_question_index ≥ p.questions.length then none
  else some (p.questions.getD p.current_question_index (""))

/-- RoleBasedInterviewPhase.submit_answer: returns the has-more flag and
the updated phase. -/
def submit_answer (p : RolePhase) (answer : String) : Bool × RolePhase :=
  if p.current_question_index ≥ p.questions.length then (false, p)
  else
    let entry : RoleAnswer :=
      { question := p.questions.getD p.current_question_index (""),
        answer := pyStrip answer,
        question_number := p.current_question_index + 1 }
    let p1 : RolePhase :=
      { p with answers := p.answers ++ [entry],
               current_question_index := p.current_question_index + 1 }
    if p1.current_question_index ≥ p1.questions.length then
      (false, { p1 with completed := true })
    else (true, p1)

/-- Run a sequence of submit_answer calls against a phase, collecting
the returned flags and the final phase. -/
def runSubmits (p : RolePhase) : List String → List Bool × RolePhase
  | [] => ([], p)
  | a :: rest =>
      let r := submit_answer p a
      let rec' := runSubmits r.2 rest
      (r.1 :: rec'.1, rec'.2)

/-! ## interactive_interview.py : the question plan -/

/-- The always-present introduction question (plan step 1). -/
def introQuestion (name : String) : PlannedQuestion :=
  { id := 1, qtype := "introduction",
    question := "Hello " ++ name ++ "! Please introduce yourself. Tell us about your background, education, and what interests you about this field.",
    expected_duration := "2-3 minutes",
    key_points := ["background", "education", "interests"] }

/-- The always-present hobbies question (plan step 2). -/
def hobbiesQuestion : PlannedQuestion :=
  { id := 2, qtype := "hobbies",
    question := "Can you tell us about your hobbies and interests? How do they relate to your current course of study or career goals?",
    expected_duration := "1-2 minutes",
    key_points := ["hobbies", "relation to career"] }

/-- One project question; i is the enumerate counter that starts at 3
and doubles as the question id. -/
def mkProjectQuestion (i : Nat) (project : Project) : PlannedQuestion :=
  let project_name := project.title.getD ("Project " ++ toString (i - 2))
  { id := i, qtype := "project",
    question := "Let\x27s discuss your project \x27" ++ project_name ++ "\x27. Can you explain what it was about, the challenges you faced, the technologies you used, and the outcome?",
    expected_duration := "3-4 minutes",
    key_points := ["project description", "challenges", "technologies", "outcome"],
    project_data := some project }

/-- The project loop: for i, project in enumerate(projects[:3], 3). -/
def projectQuestionsAux : Nat → List Project → List PlannedQuestion
  | _, [] => []
  | i, p :: ps => mkProjectQuestion i p :: projectQuestionsAux (i + 1) ps

/-- Company-name substrings that disqualify an experience entry. -/
def exclusion_indicators : List String :=
  ["self employed", "self-employed", "freelance", "personal", "own", "individual",
   "college", "university", "school", "institute", "club", "society", "committee",
   "student", "academic", "campus", "pes", "mit", "iit", "nit", "bits",
   "team", "group", "association", "organization"]

/-- Job-title substrings that indicate plain employment. -/
def employment_keywords : List String :=
  ["intern", "trainee", "apprentice", "employee", "worker"]

/-- Job-title substrings that indicate a professional role. -/
def professional_roles : List String :=
  ["analyst", "consultant", "specialist", "engineer", "developer", "programmer"]

/-- Job-title substrings that indicate extracurricular leadership. -/
def leadership_titles : List String :=
  ["head", "co-head", "leader", "president", "vice president", "secretary",
   "treasurer", "coordinator", "member"]

/-- The employment filter applied to each experience entry
(interactive_interview.py lines 272-314). -/
def isValidExperience (exp : Exp) : Bool :=
  let title := pyLower (exp.title.getD (""))
  let company := pyStrip (exp.company.getD (""))
  let duration := pyStrip (exp.duration.getD (""))
  let is_excluded := exclusion_indicators.any (fun ind => strContains (pyLower company) ind)
  let is_leadership_role := leadership_titles.any (fun l => strContains title l)
  let has_employment_title :=
    employment_keywords.any (fun k => strContains title k) ||
    professional_roles.any (fun r => strContains title r)
  !(company == "") && !is_excluded && has_employment_title && !is_leadership_role &&
  !(duration == "") && decide (company.length > 3) &&
  !(strContains (pyLower company) ("college")) &&
  !(strContains (pyLower company) ("university"))

/-- The experience entries that survive the employment filter. -/
def valid_experience (experience : List Exp) : List Exp :=
  experience.filter isValidExperience

/-- One experience question; question_id is len(questions)+1 at
insertion time. -/
def mkExperienceQuestion (question_id : Nat) (exp : Exp) : PlannedQuestion :=
  let company := exp.company.getD ("the company")
  let title := exp.title.getD ("your role")
  let question_text :=
    if strContains (pyLower title) ("intern") then
      "Tell me about your internship experience as " ++ title ++ " at " ++ company ++ ". What were your main responsibilities and what did you learn?"
    else
      "Describe your experience as " ++ title ++ " at " ++ company ++ ". What were your key accomplishments and responsibilities?"
  { id := question_id, qtype := "experience", question := question_text,
    expected_duration := "2-3 minutes",
    key_points := ["responsibilities", "accomplishments", "learning"],
    experience_data := some exp }

/-- The experience loop over valid_experience[:2]; base is the plan
length before the loop starts. -/
def experienceQuestionsAux : Nat → List Exp → List PlannedQuestion
  | _, [] => []
  | base, e :: es => mkExperienceQuestion (base + 1) e :: experienceQuestionsAux (base + 1) es

/-- The fixed skills-question bank (4 entries, first 2 used). -/
def skill_questions : List String :=
  ["What programming languages or technologies are you most comfortable with and why?",
   "Can you describe a challenging technical problem you\x27ve solved recently?",
   "How do you stay updated with new technologies in your field?",
   "Tell me about a time you had to learn something new quickly. How did you approach it?"]

/-- One skills question with id len(questions)+1 at insertion time. -/
def mkSkillsQuestion (question_id : Nat) (text : String) : PlannedQuestion :=
  { id := question_id, qtype := "skills", question := text,
    expected_duration := "2-3 minutes",
    key_points := ["technical skills", "problem solving", "learning ability"] }

/-- The skills loop over skill_questions[:2]. -/
def skillsQuestionsAux : Nat → List String → List PlannedQuestion
  | _, [] => []
  | base, q :: qs => mkSkillsQuestion (base + 1) q :: skillsQuestionsAux (base + 1) qs

/-- InteractiveInterviewSystem._generate_question_plan. -/
def generate_question_plan (resume : ResumeData) : List PlannedQuestion :=
  let name := resume.name.getD ("Candidate")
  let base := [introQuestion name, hobbiesQuestion] ++ projectQuestionsAux 3 (resume.projects.take 3)
  let ve := valid_experience resume.experience
  if ve.isEmpty then base ++ skillsQuestionsAux base.length (skill_questions.take 2)
  else base ++ experienceQuestionsAux base.length (ve.take 2)

/-! ## interactive_interview.py : answer processing -/

/-- The skip vocabulary of process_answer (line 99). -/
def skipVocab : List String :=
  ["skip", "skip to next", "next question", "skip this", "move to next"]

/-- Skip detection: answer.lower().strip() in skipVocab. -/
def is_skip (answer : String) : Bool :=
  skipVocab.contains (pyStrip (pyLower answer))

/-- Stand-in for the fallback dictionary with question "Unknown" used
when the cursor is still 0; its type key is absent, so type reads
default to general. -/
def unknownQuestion : PlannedQuestion :=
  { id := 0, qtype := "general", question := "Unknown",
    expected_duration := "", key_points := [] }

/-- The planned question the answer under processing belongs to:
planned_questions[current_question_index - 1] when the cursor is
positive, else the Unknown fallback. -/
def currentPlannedQuestion (s : Session) : PlannedQuestion :=
  if s.current_question_index > 0 then
    s.planned_questions.getD (s.current_question_index - 1) unknownQuestion
  else unknownQuestion

/-- The effective _analyze_answer (line 630; the class body defines the
name twice and this later pure definition shadows the LLM-calling one at
line 391, so this is the analysis process_answer actually invokes). -/
def analyze_answer (current_question : PlannedQuestion) (user_answer : String) : AnalysisResult :=
  let answer_length := pyWordCount user_answer
  let analysis : AnalysisResult :=
    { needs_followup := false, feedback := "",
      answer_quality := if answer_length > 10 then "good" else "brief" }
  let question_type := current_question.qtype
  if question_type == "projects" && decide (answer_length > 20) && strContains (pyLower user_answer) ("challenge") then
    { analysis with needs_followup := true,
                    feedback := "Great detail about the challenges you faced!" }
  else if question_type == "experience" && decide (answer_length > 15) then
    { analysis with needs_followup := true,
                    feedback := "Interesting experience! I\x27d like to know more." }
  else analysis

/-- The canned positive responses used while role_based (line 588). -/
def roleBasedResponses : List String :=
  ["Great answer! Your technical knowledge is showing.",
   "Excellent! That demonstrates good understanding.",
   "Perfect! I can see you have solid technical skills.",
   "Wonderful! That\x27s a well-thought-out response.",
   "Outstanding! Your expertise is clear."]

/-- The generic fallbacks used when the encouragement call raises
(line 621). -/
def fallbackPositiveResponses : List String :=
  ["That\x27s a great answer! Thank you for sharing.",
   "Excellent! I appreciate the detailed response.",
   "Wonderful! Your experience really shows.",
   "Perfect! That\x27s exactly what we wanted to hear."]

/-- _generate_positive_response (line 581): canned choice while
role_based, otherwise the oracle text trimmed, with a random generic
fallback when the oracle raises. -/
def generate_positive_response (rng : Nat) (posOracle : Except String String)
    (state : InterviewState) (user_answer : String)
    (current_question : PlannedQuestion) : String :=
  if state == InterviewState.role_based then pyChoice roleBasedResponses rng
  else
    match posOracle with
    | Except.ok content => pyStrip content
    | Except.error _ => pyChoice fallbackPositiveResponses rng

/-- The type-keyed fallback follow-up questions (line 685). -/
def fallbackFollowups : List (String × String) :=
  [("projects", "Can you tell me more about the most challenging part of that project?"),
   ("experience", "What was the most valuable thing you learned from that experience?"),
   ("skills", "How do you stay updated with the latest developments in this area?"),
   ("general", "That\x27s interesting! Can you give me a specific example?")]

/-- The effective _generate_followup_question (line 659, shadowing the
line 445 definition): the oracle text trimmed, or on failure the
fallback keyed by the question type. -/
def generate_followup_question (fuOracle : Except String String)
    (current_question : PlannedQuestion) (user_answer : String)
    (analysis : AnalysisResult) : String :=
  match fuOracle with
  | Except.ok content => pyStrip content
  | Except.error _ =>
      (fallbackFollowups.lookup current_question.qtype).getD ("Can you elaborate on that a bit more?")

/-- Display names of the three roles. -/
def roleDisplayNames : List (String × String) :=
  [("python_developer", "Python Developer"),
   ("java_developer", "Java Developer"),
   ("mern_stack", "MERN Stack Developer")]

/-- RoleBasedInterviewPhase.get_completion_message (leading emoji of the
source template omitted). -/
def phaseCompletionMessage (p : RolePhase) : String :=
  let role_display := (roleDisplayNames.lookup p.role).getD p.role
  "**Thank you for completing the interview!**\n\nWe\x27ve covered:\n- Personal introduction and background questions\n- Questions based on your resume and experience  \n- " ++ toString p.questions.length ++ " technical questions for " ++ role_display ++ "\n\nYour responses have been recorded and will be reviewed by our team. We appreciate the time you\x27ve taken to participate in this interview process.\n\n**Next Steps:**\n- Our team will review your responses\n- You\x27ll hear back from us within 2-3 business days\n- Feel free to reach out if you have any questions\n\nThank you once again, and we look forward to potentially working with you!"

/-- The generic completion message used when no role phase ran
(interactive_interview.py line 208, leading emoji omitted). -/
def genericCompletionMessage : String :=
  "**Thank you for completing the interview!**\n\nWe\x27ve covered:\n- Personal introduction and background questions\n- Questions based on your resume and experience  \n\nYour responses have been recorded and will be reviewed by our team. We appreciate the time you\x27ve taken to participate in this interview process.\n\n**Next Steps:**\n- Our team will review your responses\n- You\x27ll hear back from us within 2-3 business days\n- Feel free to reach out if you have any questions\n\nThank you once again, and we look forward to potentially working with you!"

/-- InteractiveInterviewSystem._complete_interview. -/
def complete_interview (s : Session) : Except String PAResult × Session :=
  let s1 := { s with interview_state := InterviewState.completed }
  match s1.role_phase with
  | some ph => (Except.ok (PAResult.completedR (phaseCompletionMessage ph)), s1)
  | none => (Except.ok (PAResult.completedR genericCompletionMessage), s1)

/-- The tail of _get_next_question (lines 377-389): serve the current
role-phase question, or transition to completed when the phase is
exhausted; any other configuration yields no further question. -/
def nextFromRolePhase (s : Session) : Except String (Option String) × Session :=
  match s.interview_state, s.role_phase with
  | InterviewState.role_based, some ph =>
      match get_current_question ph with
      | some q =>
          if q == "" then (Except.ok none, { s with interview_state := InterviewState.completed })
          else (Except.ok (some q),
                { s with question_stats := { s.question_stats with questions_asked := s.question_stats.questions_asked + 1 } })
      | none => (Except.ok none, { s with interview_state := InterviewState.completed })
  | _, _ => (Except.ok none, s)

/-- InteractiveInterviewSystem._get_next_question.  The unknown-role
ValueError raised while constructing the phase propagates as an
Except.error carrying the partially mutated session, exactly as the
Python object is left mutated when the constructor raises. -/
def get_next_question (sample : List String → Nat → List String)
    (s : Session) : Except String (Option String) × Session :=
  if s.current_question_index < s.planned_questions.length then
    (Except.ok (some (s.planned_questions.getD s.current_question_index unknownQuestion).question),
     { s with current_question_index := s.current_question_index + 1,
              question_stats := { s.question_stats with questions_asked := s.question_stats.questions_asked + 1 } })
  else if optTruthy s.selected_role && (s.interview_state == InterviewState.in_progress) then
    let s1 := { s with interview_state := InterviewState.role_based }
    match (match s1.role_phase with
           | some ph => Except.ok ph
           | none => mkRolePhase sample (s1.selected_role.getD ("")) 4) with
    | Except.error e => (Except.error e, s1)
    | Except.ok ph =>
        let s2 := { s1 with role_phase := some ph }
        match get_current_question ph with
        | some q =>
            if q == "" then nextFromRolePhase s2
            else (Except.ok (some ("Now let\x27s test your technical knowledge. " ++ q)),
                  { s2 with question_stats := { s2.question_stats with questions_asked := s2.question_stats.questions_asked + 1 } })
        | none => nextFromRolePhase s2
  else nextFromRolePhase s

/-- InteractiveInterviewSystem.process_answer.  The two language-model
round trips this call can make are passed in as oracle outcomes; rng is
the ambient random draw for random.choice. -/
def process_answer (sample : List String → Nat → List String) (rng : Nat)
    (posOracle fuOracle : Except String String)
    (s : Session) (answer : String) : Except String PAResult × Session :=
  if !(s.interview_state == InterviewState.in_progress || s.interview_state == InterviewState.role_based) then
    (Except.ok (PAResult.errorR ("Interview session not active")), s)
  else if is_skip answer then
    let s1 := { s with question_stats := { s.question_stats with questions_skipped := s.question_stats.questions_skipped + 1 } }
    match s1.interview_state, s1.role_phase with
    | InterviewState.role_based, some ph =>
        let r := submit_answer ph ("Skipped")
        let s2 := { s1 with role_phase := some r.2 }
        if r.1 then
          (Except.ok (PAResult.success ((get_current_question r.2).getD ("")) false
             ("No problem! Let\x27s move on to the next question.") ("")), s2)
        else complete_interview s2
    | _, _ =>
        let cq := currentPlannedQuestion s1
        let s2 := { s1 with conversation_history := s1.conversation_history ++ [{ question := cq.question, answer := "Skipped", timestamp := "" }] }
        match get_next_question sample s2 with
        | (Except.error e, s3) => (Except.error e, s3)
        | (Except.ok nq, s3) =>
            if optTruthy nq then
              (Except.ok (PAResult.success (nq.getD ("")) false
                 ("No problem! Let\x27s move on to the next question.") ("")), s3)
            else complete_interview s3
  else
    let s1 := { s with question_stats := { s.question_stats with questions_answered := s.question_stats.questions_answered + 1 } }
    match s1.interview_state, s1.role_phase with
    | InterviewState.role_based, some ph =>
        let r := submit_answer ph answer
        let s2 := { s1 with role_phase := some r.2 }
        if r.1 then
          (Except.ok (PAResult.success ((get_current_question r.2).getD ("")) false
             ("Good answer! Let\x27s continue with the technical questions.") ("")), s2)
        else complete_interview s2
    | _, _ =>
        let cq := currentPlannedQuestion s1
        let s2 := { s1 with conversation_history := s1.conversation_history ++ [{ question := cq.question, answer := answer, timestamp := "" }] }
        let positive_response := generate_positive_response rng posOracle s2.interview_state answer cq
        let analysis := analyze_answer cq answer
        if analysis.needs_followup then
          (Except.ok (PAResult.success (generate_followup_question fuOracle cq answer analysis) true
             positive_response analysis.feedback), s2)
        else
          match get_next_question sample s2 with
          | (Except.error e, s3) => (Except.error e, s3)
          | (Except.ok nq, s3) =>
              if optTruthy nq then
                (Except.ok (PAResult.success (nq.getD ("")) false positive_response analysis.feedback), s3)
              else complete_interview s3

/-- The result dictionary of initialize_interview (question is the
first served question; None when the plan is empty and no role phase
starts). -/
structure InitResult where
  status : String
  question : Option String
deriving DecidableEq, Repr

/-- A fresh InteractiveInterviewSystem object (the constructor at
line 18). -/
def newSession (selected_role : Option String) : Session :=
  { conversation_history := [], current_question_index := 0,
    planned_questions := [],
    resume_data := { name := none, projects := [], experience := [], skills := [] },
    interview_state := InterviewState.not_started,
    selected_role := selected_role, role_phase := none,
    question_stats := { total_questions := 0, questions_asked := 0,
                        questions_answered := 0, questions_skipped := 0,
                        resume_questions := 0, role_questions := 0 } }

/-- InteractiveInterviewSystem.initialize_interview.  Note that the
constructor-time role_phase is not reset here, exactly as in the
source. -/
def initialize_interview (sample : List String → Nat → List String)
    (s : Session) (resume : ResumeData) : Except String InitResult × Session :=
  let plan := generate_question_plan resume
  let role_question_count := if optTruthy s.selected_role then 4 else 0
  let s1 : Session :=
    { s with resume_data := resume, conversation_history := [],
             current_question_index := 0,
             interview_state := InterviewState.in_progress,
             planned_questions := plan,
             question_stats :=
               { total_questions := plan.length + role_question_count,
                 questions_asked := 0, questions_answered := 0,
                 questions_skipped := 0,
                 resume_questions := plan.length,
                 role_questions := role_question_count } }
  match get_next_question sample s1 with
  | (Except.error e, s2) => (Except.error e, s2)
  | (Except.ok q, s2) => (Except.ok { status := "success", question := q }, s2)

/-- The session states reachable through the public entry points:
construction, (re-)initialization, and answer processing, for any
resume, role, oracle outcomes and random draws. -/
inductive Reachable : Session → Prop
  | new (role : Option String) : Reachable (newSession role)
  | init (sample : List String → Nat → List String) (s : Session)
      (resume : ResumeData) :
      Reachable s → Reachable (initialize_interview sample s resume).2
  | step (sample : List String → Nat → List String) (rng : Nat)
      (posOracle fuOracle : Except String String) (s : Session)
      (answer : String) :
      Reachable s → Reachable (process_answer sample rng posOracle fuOracle s answer).2

/-- The inductive invariant that carries the statistics bound through
every entry point. -/
def StatsInv (s : Session) : Prop :=
  s.current_question_index ≤ s.planned_questions.length ∧
  (s.interview_state ≠ InterviewState.not_started →
     s.question_stats.total_questions =
       s.planned_questions.length + (if optTruthy s.selected_role then 4 else 0)) ∧
  (s.interview_state = InterviewState.in_progress →
     s.question_stats.questions_asked ≤ s.current_question_index) ∧
  s.question_stats.questions_asked ≤
    s.current_question_index + (if optTruthy s.selected_role then 1 else 0) ∧
  (s.interview_state = InterviewState.role_based → optTruthy s.selected_role = true) ∧
  (s.interview_state = InterviewState.role_based → s.role_phase = none →
     s.planned_questions.length ≤ s.current_question_index) ∧
  s.question_stats.questions_asked ≤ s.question_stats.total_questions

lemma complete_interview_snd (s : Session) :
    (complete_interview s).2 = { s with interview_state := InterviewState.completed } := by
  unfold complete_interview
  dsimp only
  split <;> rfl

lemma complete_interview_inv (s : Session) (h : StatsInv s)
    (hns : s.interview_state ≠ InterviewState.not_started) :
    StatsInv (complete_interview s).2 := by
  unfold StatsInv at h ⊢
  obtain ⟨h1, h2, h3, h4, h5, h6, h7⟩ := h
  rw [complete_interview_snd]
  refine ⟨h1, fun _ => h2 hns, by simp, h4, by simp, by simp, h7⟩

lemma get_next_question_inv (sample : List String → Nat → List String) (s : Session)
    (h : StatsInv s)
    (hpre : s.interview_state = InterviewState.in_progress ∨
            (s.interview_state = InterviewState.role_based ∧ s.role_phase = none)) :
    StatsInv (get_next_question sample s).2 ∧
    (get_next_question sample s).2.interview_state ≠ InterviewState.not_started := by
  unfold StatsInv at h
  obtain ⟨h1, h2, h3, h4, h5, h6, h7⟩ := h
  have hns : s.interview_state ≠ InterviewState.not_started := by
    rcases hpre with hp | ⟨hp, _⟩ <;> simp [hp]
  unfold get_next_question
  by_cases hc : s.current_question_index < s.planned_questions.length
  · -- first block: serve the next planned question
    have hip : s.interview_state = InterviewState.in_progress := by
      rcases hpre with hp | ⟨hp, hn⟩
      · exact hp
      · exact absurd (h6 hp hn) (by omega)
    have ht := h2 hns
    have ha := h3 hip
    rw [if_pos hc]
    refine ⟨?_, hns⟩
    unfold StatsInv
    dsimp only
    exact ⟨by omega, fun _ => ht, fun _ => by omega, by omega,
           by simp [hip], by simp [hip], by omega⟩
  · rw [if_neg hc]
    have hcge : s.planned_questions.length ≤ s.current_question_index := by omega
    by_cases hg : (optTruthy s.selected_role && (s.interview_state == InterviewState.in_progress)) = true
    · rw [if_pos hg]
      have hrole : optTruthy s.selected_role = true := by
        simpa using (Bool.and_elim_left hg)
      have hip : s.interview_state = InterviewState.in_progress := by
        have hbeq := Bool.and_elim_right hg
        simpa using hbeq
      have ht := h2 hns
      have ha := h3 hip
      dsimp only
      rcases hph : s.role_phase with _ | ph
      · -- phase must be constructed
        dsimp only
        rcases hmk : mkRolePhase sample (s.selected_role.getD "") 4 with e | ph
        · dsimp only
          refine ⟨?_, by simp⟩
          unfold StatsInv
          dsimp only
          exact ⟨h1, fun _ => ht, by simp, h4, fun _ => hrole, fun _ _ => hcge, h7⟩
        · dsimp only
          rcases hq : get_current_question ph with _ | q
          · unfold nextFromRolePhase
            dsimp only
            rw [hq]
            dsimp only
            refine ⟨?_, by simp⟩
            unfold StatsInv
            dsimp only
            exact ⟨h1, fun _ => ht, by simp, h4, by simp, by simp, h7⟩
          · dsimp only
            by_cases hqe : (q == "") = true
            · rw [if_pos hqe]
              unfold nextFromRolePhase
              dsimp only
              rw [hq]
              dsimp only
              rw [if_pos hqe]
              refine ⟨?_, by simp⟩
              unfold StatsInv
              dsimp only
              exact ⟨h1, fun _ => ht, by simp, h4, by simp, by simp, h7⟩
            · rw [if_neg hqe]
              refine ⟨?_, by simp⟩
              unfold StatsInv
              dsimp only
              refine ⟨h1, fun _ => ht, by simp, ?_, fun _ => hrole, by simp, ?_⟩
              · rw [if_pos hrole]
                omega
              · rw [if_pos hrole] at ht
                omega
      · -- stale phase retained
        dsimp only
        rcases hq : get_current_question ph with _ | q
        · unfold nextFromRolePhase
          dsimp only
          rw [hq]
          dsimp only
          refine ⟨?_, by simp⟩
          unfold StatsInv
          dsimp only
          exact ⟨h1, fun _ => ht, by simp, h4, by simp, by simp, h7⟩
        · dsimp only
          by_cases hqe : (q == "") = true
          · rw [if_pos hqe]
            unfold nextFromRolePhase
            dsimp only
            rw [hq]
            dsimp only
            rw [if_pos hqe]
            refine ⟨?_, by simp⟩
            unfold StatsInv
            dsimp only
            exact ⟨h1, fun _ => ht, by simp, h4, by simp, by simp, h7⟩
          · rw [if_neg hqe]
            refine ⟨?_, by simp⟩
            unfold StatsInv
            dsimp only
            refine ⟨h1, fun _ => ht, by simp, ?_, fun _ => hrole, by simp, ?_⟩
            · rw [if_pos hrole]
              omega
            · rw [if_pos hrole] at ht
              omega
    · rw [if_neg hg]
      rcases hpre with hip | ⟨hrb, hpn⟩
      · unfold nextFromRolePhase
        rw [hip]
        refine ⟨?_, by rw [hip]; simp⟩
        unfold StatsInv
        exact ⟨h1, h2, h3, h4, h5, h6, h7⟩
      · unfold nextFromRolePhase
        rw [hrb, hpn]
        refine ⟨?_, by rw [hrb]; simp⟩
        unfold StatsInv
        exact ⟨h1, h2, h3, h4, h5, h6, h7⟩

lemma resume_advance_inv (sample : List String → Nat → List String) (s2 : Session)
    (g : Option String → Session → Except String PAResult × Session)
    (hg : ∀ nq s3, (g nq s3).2 = s3 ∨ (g nq s3).2 = (complete_interview s3).2)
    (h : StatsInv s2)
    (hpre : s2.interview_state = InterviewState.in_progress ∨
            (s2.interview_state = InterviewState.role_based ∧ s2.role_phase = none)) :
    StatsInv (match get_next_question sample s2 with
              | (Except.error e, s3) => ((Except.error e : Except String PAResult), s3)
              | (Except.ok nq, s3) => g nq s3).2 := by
  obtain ⟨hinv, hns⟩ := get_next_question_inv sample s2 h hpre
  rcases hgn : get_next_question sample s2 with ⟨r, s3⟩
  rw [hgn] at hinv hns
  rcases r with e | nq
  · exact hinv
  · dsimp only
    rcases hg nq s3 with he | he <;> rw [he]
    · exact hinv
    · exact complete_interview_inv s3 hinv hns

lemma process_answer_inv (sample : List String → Nat → List String) (rng : Nat)
    (po fo : Except String String) (s : Session) (ans : String) (h : StatsInv s) :
    StatsInv (process_answer sample rng po fo s ans).2 := by
  have hkeep := h
  unfold StatsInv at h
  obtain ⟨h1, h2, h3, h4, h5, h6, h7⟩ := h
  unfold process_answer
  by_cases hact : (!(s.interview_state == InterviewState.in_progress || s.interview_state == InterviewState.role_based)) = true
  · rw [if_pos hact]
    exact hkeep
  · rw [if_neg hact]
    have hstate : s.interview_state = InterviewState.in_progress ∨ s.interview_state = InterviewState.role_based := by
      by_cases hi : s.interview_state = InterviewState.in_progress
      · exact Or.inl hi
      · have himp : ¬ s.interview_state = InterviewState.in_progress →
            s.interview_state = InterviewState.role_based := by simpa using hact
        exact Or.inr (himp hi)
    by_cases hskip : is_skip ans = true
    · rw [if_pos hskip]
      dsimp only
      rcases hst : s.interview_state with _ | _ | _ | _
      · rw [hst] at hstate; simp at hstate
      · -- in_progress: the resume skip arm
        dsimp only
        refine resume_advance_inv sample _ _ ?_ ?_ (Or.inl rfl)
        · intro nq s3
          dsimp only
          split
          · exact Or.inl rfl
          · exact Or.inr rfl
        · unfold StatsInv
          dsimp only
          exact ⟨h1, fun _ => h2 (by rw [hst]; simp), fun _ => h3 hst, h4, by simp, by simp, h7⟩
      · -- role_based
        rcases hph : s.role_phase with _ | ph
        · dsimp only
          refine resume_advance_inv sample _ _ ?_ ?_ (Or.inr ⟨rfl, rfl⟩)
          · intro nq s3
            dsimp only
            split
            · exact Or.inl rfl
            · exact Or.inr rfl
          · unfold StatsInv
            dsimp only
            exact ⟨h1, fun _ => h2 (by rw [hst]; simp), by simp, h4, fun _ => h5 hst,
                   fun _ _ => h6 hst hph, h7⟩
        · dsimp only
          by_cases hm : (submit_answer ph ("Skipped")).1 = true
          · rw [if_pos hm]
            unfold StatsInv
            dsimp only
            exact ⟨h1, fun _ => h2 (by rw [hst]; simp), by simp, h4, fun _ => h5 hst, by simp, h7⟩
          · rw [if_neg hm]
            refine complete_interview_inv _ ?_ (by simp)
            unfold StatsInv
            dsimp only
            exact ⟨h1, fun _ => h2 (by rw [hst]; simp), by simp, h4, fun _ => h5 hst, by simp, h7⟩
      · rw [hst] at hstate; simp at hstate
    · rw [if_neg hskip]
      dsimp only
      rcases hst : s.interview_state with _ | _ | _ | _
      · rw [hst] at hstate; simp at hstate
      · -- in_progress: the resume answer arm
        dsimp only
        split
        · unfold StatsInv
          dsimp only
          exact ⟨h1, fun _ => h2 (by rw [hst]; simp), fun _ => h3 hst, h4, by simp, by simp, h7⟩
        · refine resume_advance_inv sample _ _ ?_ ?_ (Or.inl rfl)
          · intro nq s3
            dsimp only
            split
            · exact Or.inl rfl
            · exact Or.inr rfl
          · unfold StatsInv
            dsimp only
            exact ⟨h1, fun _ => h2 (by rw [hst]; simp), fun _ => h3 hst, h4, by simp, by simp, h7⟩
      · rcases hph : s.role_phase with _ | ph
        · dsimp only
          split
          · unfold StatsInv
            dsimp only
            exact ⟨h1, fun _ => h2 (by rw [hst]; simp), by simp, h4, fun _ => h5 hst,
                   fun _ _ => h6 hst hph, h7⟩
          · refine resume_advance_inv sample _ _ ?_ ?_ (Or.inr ⟨rfl, rfl⟩)
            · intro nq s3
              dsimp only
              split
              · exact Or.inl rfl
              · exact Or.inr rfl
            · unfold StatsInv
              dsimp only
              exact ⟨h1, fun _ => h2 (by rw [hst]; simp), by simp, h4, fun _ => h5 hst,
                     fun _ _ => h6 hst hph, h7⟩
        · dsimp only
          by_cases hm : (submit_answer ph ans).1 = true
          · rw [if_pos hm]
            unfold StatsInv
            dsimp only
            exact ⟨h1, fun _ => h2 (by rw [hst]; simp), by simp, h4, fun _ => h5 hst, by simp, h7⟩
          · rw [if_neg hm]
            refine complete_interview_inv _ ?_ (by simp)
            unfold StatsInv
            dsimp only
            exact ⟨h1, fun _ => h2 (by rw [hst]; simp), by simp, h4, fun _ => h5 hst, by simp, h7⟩
      · rw [hst] at hstate; simp at hstate

lemma gnq_inv_of_eq (sample : List String → Nat → List String) (s2 : Session)
    (r : Except String (Option String)) (s3 : Session)
    (heq : get_next_question sample s2 = (r, s3)) (h : StatsInv s2)
    (hpre : s2.interview_state = InterviewState.in_progress ∨
            (s2.interview_state = InterviewState.role_based ∧ s2.role_phase = none)) :
    StatsInv s3 ∧ s3.interview_state ≠ InterviewState.not_started := by
  have hres := get_next_question_inv sample s2 h hpre
  rw [heq] at hres
  exact hres

lemma initialize_interview_inv (sample : List String → Nat → List String) (s : Session)
    (resume : ResumeData) : StatsInv (initialize_interview sample s resume).2 := by
  unfold initialize_interview
  dsimp only
  split
  all_goals rename_i heq
  all_goals refine (gnq_inv_of_eq sample _ _ _ heq ?_ (Or.inl rfl)).1
  all_goals unfold StatsInv
  all_goals dsimp only
  all_goals exact ⟨Nat.zero_le _, fun _ => rfl, fun _ => Nat.le_refl 0, Nat.zero_le _,
                   by simp, by simp, Nat.zero_le _⟩

lemma statsinv_newSession (role : Option String) : StatsInv (newSession role) := by
  unfold StatsInv newSession
  dsimp only
  exact ⟨Nat.le_refl 0, fun hx => absurd rfl hx, by simp, Nat.zero_le _, by simp, by simp,
         Nat.le_refl 0⟩

lemma statsinv_reachable (s : Session) (h : Reachable s) : StatsInv s := by
  induction h with
  | new role => exact statsinv_newSession role
  | init sample s resume hr ih => exact initialize_interview_inv sample s resume
  | step sample rng po fo s ans hr ih => exact process_answer_inv sample rng po fo s ans ih

/-! ## Concrete scenarios -/

/-- A deterministic stand-in for random.sample used to run concrete
scenarios: draw the first k elements. -/
def sampleTake : List String → Nat → List String := fun pop k => pop.take k

/-- A language-model oracle outcome that returns normally. -/
def okOracle : Except String String := Except.ok ("Nice!")

/-- One process_answer turn with the deterministic sampler and
well-behaved oracles. -/
def stepOk (s : Session) (a : String) : Session :=
  (process_answer sampleTake 0 okOracle okOracle s a).2

/-- The resume of testable property 7 of the specification: name Asha,
four projects, no experience entries. -/
def c2resume : ResumeData :=
  { name := some ("Asha"),
    projects := [{ title := some ("P1") }, { title := some ("P2") },
                 { title := some ("P3") }, { title := some ("P4") }],
    experience := [], skills := [] }

/-- The Asha session right after initialize_interview with role
python_developer. -/
def c2s0 : Session :=
  (initialize_interview sampleTake (newSession (some ("python_developer"))) c2resume).2

/-- The Asha session after n non-skip answers of ok. -/
def c2run : Nat → Session
  | 0 => c2s0
  | n + 1 => stepOk (c2run n) ("ok")

lemma c2run_reachable (n : Nat) : Reachable (c2run n) := by
  induction n with
  | zero =>
      exact Reachable.init sampleTake (newSession (some ("python_developer"))) c2resume
        (Reachable.new (some ("python_developer")))
  | succ k ih =>
      exact Reachable.step sampleTake 0 okOracle okOracle (c2run k) ("ok") ih

/-- A resume whose single experience entry passes the employment
filter, so its plan ends with one experience-type question. -/
def c3resume : ResumeData :=
  { name := some ("Ben"), projects := [],
    experience := [{ title := some ("Software Engineer"),
                     company := some ("Acme Corporation"),
                     duration := some ("2 years") }],
    skills := [] }

/-- The Ben session right after initialize_interview without a role. -/
def c3s0 : Session :=
  (initialize_interview sampleTake (newSession none) c3resume).2

/-- The Ben session after answering the introduction and hobbies
questions: the current question is the experience question. -/
def c3s2 : Session := stepOk (stepOk c3s0 ("ok")) ("ok")

lemma c3s2_reachable : Reachable c3s2 :=
  Reachable.step sampleTake 0 okOracle okOracle _ ("ok")
    (Reachable.step sampleTake 0 okOracle okOracle _ ("ok")
      (Reachable.init sampleTake (newSession none) c3resume (Reachable.new none)))

/-- An experience answer of more than 15 words, triggering the
follow-up rule of the effective analysis. -/
def longAnswer : String :=
  "I worked on many backend systems and led a team of five engineers across multiple projects for two years there"

/-- Observation helper: whether a process_answer outcome is a success
payload carrying is_followup true. -/
def resultIsFollowup : Except String PAResult → Bool
  | Except.ok (PAResult.success _ f _ _) => f
  | _ => false

/-- Observation helper: whether a process_answer outcome is a success
payload. -/
def resultIsSuccess : Except String PAResult → Bool
  | Except.ok (PAResult.success _ _ _ _) => true
  | _ => false

/-! ## Claim C1 -/

/-- C1 counterexample: after the Asha scenario runs through the seven
resume answers and three of the four technical answers, the session is
a reachable state in which questions_answered + questions_skipped
exceeds questions_asked, so the claimed invariant fails: answers
processed in the role_based state increment questions_answered but not
questions_asked. -/
theorem C1_counterexample :
    Reachable (c2run 10) ∧
    ¬ ((c2run 10).question_stats.questions_answered +
         (c2run 10).question_stats.questions_skipped ≤
       (c2run 10).question_stats.questions_asked) :=
  ⟨c2run_reachable 10, by decide⟩

/-- C1 (amended): in every reachable session state, total_questions
still equals len(plan) + (4 if a role was selected else 0) once the
session has been initialized, and questions_asked never exceeds
total_questions; both facts are preserved by every
initialize_interview and process_answer call.  The other half of the
claimed invariant, questions_answered + questions_skipped <=
questions_asked, is violated in the role_based state. -/
theorem C1_stats_invariant (s : Session) (h : Reachable s) :
    (s.interview_state ≠ InterviewState.not_started →
      s.question_stats.total_questions = s.planned_questions.length +
        (if optTruthy s.selected_role then 4 else 0)) ∧
    s.question_stats.questions_asked ≤ s.question_stats.total_questions :=
  ⟨(statsinv_reachable s h).2.1, (statsinv_reachable s h).2.2.2.2.2.2⟩

/-- C1 witness: the bound instantiated at the freshly initialized Asha
session, a concrete reachable state. -/
theorem C1_witness :
    (c2run 0).question_stats.questions_asked ≤ (c2run 0).question_stats.total_questions :=
  (C1_stats_invariant (c2run 0) (c2run_reachable 0)).2

/-! ## Claim C2 -/

/-- C2 counterexample: the Asha end-to-end scenario does finish in the
completed state, but questions_asked is 8 rather than the claimed 11,
because answers in the role_based state (after the first technical
question) never increment questions_asked. -/
theorem C2_counterexample :
    (c2run 11).interview_state = InterviewState.completed ∧
    ¬ ((c2run 11).question_stats.questions_asked = 11) := by
  constructor
  · decide
  · decide

/-- C2 (amended): in the Asha scenario the plan has length 7 with three
project and two skills questions, total_questions is 11, and after the
seven resume answers and four technical answers the session is
completed with questions_asked = 8 and questions_answered = 11. -/
theorem C2_end_to_end :
    (generate_question_plan c2resume).length = 7 ∧
    ((generate_question_plan c2resume).filter (fun q => q.qtype == "project")).length = 3 ∧
    ((generate_question_plan c2resume).filter (fun q => q.qtype == "skills")).length = 2 ∧
    c2s0.question_stats.total_questions = 11 ∧
    (c2run 11).interview_state = InterviewState.completed ∧
    (c2run 11).question_stats.questions_asked = 8 ∧
    (c2run 11).question_stats.questions_answered = 11 := by
  refine ⟨by decide, by decide, by decide, by decide, ?_, ?_, ?_⟩
  · decide
  · decide
  · decide

/-! ## Claim C3 -/

/-- C3 counterexample: at the reachable Ben session whose current
question has type experience, a 20-word answer makes the analysis
request a follow-up; the call returns a success tagged
is_followup = true but leaves questions_asked unchanged, refuting the
claim that such a call increments questions_asked. -/
theorem C3_counterexample :
    c3s2.interview_state = InterviewState.in_progress ∧
    (analyze_answer (currentPlannedQuestion c3s2) longAnswer).needs_followup = true ∧
    resultIsFollowup ((process_answer sampleTake 0 okOracle okOracle c3s2 longAnswer).1) = true ∧
    (process_answer sampleTake 0 okOracle okOracle c3s2 longAnswer).2.question_stats.questions_asked
      = c3s2.question_stats.questions_asked := by
  refine ⟨by decide, by decide, by decide, by decide⟩

/-- C3 (amended): a process_answer call in the in_progress state whose
analysis requests a follow-up returns a question tagged
is_followup = true, leaves questions_asked, total_questions and the
plan cursor unchanged, and only increments questions_answered;
consequently questions_asked cannot exceed total_questions in any
reachable state (the excess shows up in questions_answered instead). -/
theorem C3_followup_no_advance (sample : List String → Nat → List String) (rng : Nat)
    (po fo : Except String String) (s : Session) (ans : String)
    (hip : s.interview_state = InterviewState.in_progress)
    (hskip : is_skip ans = false)
    (hfu : (analyze_answer (currentPlannedQuestion s) ans).needs_followup = true) :
    (∃ q pr fb, (process_answer sample rng po fo s ans).1 =
        Except.ok (PAResult.success q true pr fb)) ∧
    (process_answer sample rng po fo s ans).2.question_stats.questions_asked =
      s.question_stats.questions_asked ∧
    (process_answer sample rng po fo s ans).2.question_stats.total_questions =
      s.question_stats.total_questions ∧
    (process_answer sample rng po fo s ans).2.current_question_index =
      s.current_question_index ∧
    (process_answer sample rng po fo s ans).2.question_stats.questions_answered =
      s.question_stats.questions_answered + 1 ∧
    (∀ s2 : Session, Reachable s2 →
        s2.question_stats.questions_asked ≤ s2.question_stats.total_questions) := by
  unfold process_answer
  split
  · rename_i hcond
    rw [hip] at hcond
    simp at hcond
  · split
    · rename_i hsk
      rw [hskip] at hsk
      simp at hsk
    · dsimp only
      split
      · rename_i heq1 heq2
        rw [hip] at heq1
        simp at heq1
      · split
        · exact ⟨⟨_, _, _, rfl⟩, rfl, rfl, rfl, rfl,
                 fun s2 h2 => (statsinv_reachable s2 h2).2.2.2.2.2.2⟩
        · rename_i hneg
          exact absurd hfu hneg

/-- C3 witness: the amended statement instantiated at the concrete Ben
session and 20-word experience answer. -/
theorem C3_witness :
    (process_answer sampleTake 0 okOracle okOracle c3s2 longAnswer).2.question_stats.questions_asked
      = c3s2.question_stats.questions_asked :=
  (C3_followup_no_advance sampleTake 0 okOracle okOracle c3s2 longAnswer
    (by decide) (by decide) (by decide)).2.1

/-! ## Claim C10 -/

lemma pyChoice_mem (l : List String) (hl : l ≠ []) (rng : Nat) : pyChoice l rng ∈ l := by
  unfold pyChoice
  have hlen : rng % l.length < l.length := Nat.mod_lt _ (List.length_pos.mpr hl)
  rw [List.getD_eq_getElem l ("") hlen]
  exact List.getElem_mem hlen

lemma nextFromRolePhase_ne_error (s : Session) (e : String) (s3 : Session) :
    ¬ (nextFromRolePhase s = (Except.error e, s3)) := by
  unfold nextFromRolePhase
  split
  · split
    · split <;> simp
    · simp
  · simp

lemma get_next_question_ne_error (sample : List String → Nat → List String) (s2 : Session)
    (hrole : optTruthy s2.selected_role = true →
      s2.role_phase.isSome = true ∨
      (ROLE_QUESTIONS.lookup (s2.selected_role.getD (""))).isSome = true)
    (e : String) (s3 : Session) :
    ¬ (get_next_question sample s2 = (Except.error e, s3)) := by
  unfold get_next_question
  split
  · simp
  · split
    · rename_i hg
      have hro : optTruthy s2.selected_role = true := by
        simp [Bool.and_eq_true] at hg
        exact hg.1
      dsimp only
      rcases hph : s2.role_phase with _ | ph
      · rcases hrole hro with hsome | hlk
        · rw [hph] at hsome
          simp at hsome
        · rcases hlo : ROLE_QUESTIONS.lookup (s2.selected_role.getD ("")) with _ | qs
          · rw [hlo] at hlk
            simp at hlk
          · unfold mkRolePhase get_random_questions
            rw [hlo]
            dsimp only
            have hq4 : (if 4 ≥ qs.length then Except.ok qs
                else Except.ok (sample qs 4) : Except String (List String)) =
                Except.ok (if 4 ≥ qs.length then qs else sample qs 4) := by
              split <;> rfl
            rw [hq4]
            dsimp only
            split
            · split
              · exact nextFromRolePhase_ne_error _ _ _
              · simp
            · exact nextFromRolePhase_ne_error _ _ _
      · dsimp only
        split
        · split
          · exact nextFromRolePhase_ne_error _ _ _
          · simp
        · exact nextFromRolePhase_ne_error _ _ _
    · exact nextFromRolePhase_ne_error _ _ _

lemma complete_interview_fst_ok (s3 : Session) :
    ∃ m, (complete_interview s3).1 = Except.ok (PAResult.completedR m) := by
  unfold complete_interview
  dsimp only
  split <;> exact ⟨_, rfl⟩

lemma generate_positive_response_error (rng : Nat) (e : String) (st : InterviewState)
    (ans : String) (cq : PlannedQuestion) (hst : st ≠ InterviewState.role_based) :
    generate_positive_response rng (Except.error e) st ans cq =
      pyChoice fallbackPositiveResponses rng := by
  unfold generate_positive_response
  rw [if_neg (by simp [hst])]

lemma pyChoice_fallback_ne_empty (rng : Nat) :
    pyChoice fallbackPositiveResponses rng ≠ "" := by
  intro hco
  have hmem := pyChoice_mem fallbackPositiveResponses (by decide) rng
  rw [hco] at hmem
  revert hmem
  decide

/-- C10 (amended): when both language-model round trips of a resume
process_answer turn raise, the call still returns a plain result (never
propagating the failure): the encouragement falls back to a non-empty
canned positive_response, is_followup is decided purely by the local
analysis rather than forced to false, and when a follow-up is needed
the returned question is the type-keyed fallback follow-up. -/
theorem C10_oracle_fallback (sample : List String → Nat → List String) (rng : Nat)
    (e1 e2 : String) (s : Session) (ans : String)
    (hip : s.interview_state = InterviewState.in_progress)
    (hskip : is_skip ans = false)
    (hrole : optTruthy s.selected_role = true →
      s.role_phase.isSome = true ∨
      (ROLE_QUESTIONS.lookup (s.selected_role.getD (""))).isSome = true) :
    (∃ res, (process_answer sample rng (Except.error e1) (Except.error e2) s ans).1 =
        Except.ok res) ∧
    (∀ q f pr fb,
        (process_answer sample rng (Except.error e1) (Except.error e2) s ans).1 =
          Except.ok (PAResult.success q f pr fb) →
        pr ≠ "" ∧
        f = (analyze_answer (currentPlannedQuestion s) ans).needs_followup ∧
        (f = true → q = (fallbackFollowups.lookup (currentPlannedQuestion s).qtype).getD
            ("Can you elaborate on that a bit more?"))) := by
  unfold process_answer
  split
  · rename_i hcond
    rw [hip] at hcond
    simp at hcond
  · split
    · rename_i hsk
      rw [hskip] at hsk
      simp at hsk
    · dsimp only
      split
      · rename_i heq1 heq2
        rw [hip] at heq1
        simp at heq1
      · split
        · -- follow-up needed
          rename_i hfu
          constructor
          · exact ⟨_, rfl⟩
          · intro q f pr fb heq
            rw [Except.ok.injEq, PAResult.success.injEq] at heq
            obtain ⟨hq, hf, hpr, hfb⟩ := heq
            refine ⟨?_, ?_, ?_⟩
            · rw [← hpr]
              rw [generate_positive_response_error rng e1 _ ans _ (by rw [hip]; simp)]
              exact pyChoice_fallback_ne_empty rng
            · rw [← hf]
              exact hfu.symm
            · intro _
              rw [← hq]
              rfl
        · -- no follow-up: advance
          rename_i hneg
          have hfalse : (analyze_answer (currentPlannedQuestion s) ans).needs_followup = false := by
            have := hneg
            revert this
            rw [Bool.not_eq_true]
            exact fun h => h
          split
          · rename_i e s3 heq
            refine absurd heq (get_next_question_ne_error sample _ ?_ e s3)
            exact hrole
          · rename_i nq s3 heq
            split
            · constructor
              · exact ⟨_, rfl⟩
              · intro q f pr fb heq2
                rw [Except.ok.injEq, PAResult.success.injEq] at heq2
                obtain ⟨hq, hf, hpr, hfb⟩ := heq2
                refine ⟨?_, ?_, ?_⟩
                · rw [← hpr]
                  rw [generate_positive_response_error rng e1 _ ans _ (by rw [hip]; simp)]
                  exact pyChoice_fallback_ne_empty rng
                · rw [← hf]
                  exact hfalse.symm
                · intro hco
                  rw [← hf] at hco
                  simp at hco
            · constructor
              · obtain ⟨m, hm⟩ := complete_interview_fst_ok s3
                exact ⟨_, hm⟩
              · intro q f pr fb heq2
                obtain ⟨m, hm⟩ := complete_interview_fst_ok s3
                rw [hm] at heq2
                simp at heq2

/-- C10 witness: the amended statement at the concrete Ben session with
both oracles raising on a short answer. -/
theorem C10_witness :
    ∃ res, (process_answer sampleTake 0 (Except.error ("boom")) (Except.error ("boom"))
      c3s2 ("ok")).1 = Except.ok res :=
  (C10_oracle_fallback sampleTake 0 ("boom") ("boom") c3s2 ("ok")
    (by decide) (by decide) (by decide)).1

/-- C10 counterexample: when the follow-up generation call raises
during a turn whose analysis requested a follow-up, process_answer
returns a success payload tagged is_followup = true, refuting the
claim that any oracle failure yields is_followup = false. -/
theorem C10_counterexample :
    resultIsSuccess ((process_answer sampleTake 0 (Except.error ("boom"))
      (Except.error ("boom")) c3s2 longAnswer).1) = true ∧
    resultIsFollowup ((process_answer sampleTake 0 (Except.error ("boom"))
      (Except.error ("boom")) c3s2 longAnswer).1) = true := by
  refine ⟨by decide, by decide⟩

/-! ## Claim C9 -/

lemma nextFromRolePhase_skipped (s : Session) :
    ((nextFromRolePhase s).2).question_stats.questions_skipped =
      s.question_stats.questions_skipped := by
  unfold nextFromRolePhase
  split
  · split
    · split <;> rfl
    · rfl
  · rfl

lemma get_next_question_skipped (sample : List String → Nat → List String) (s2 : Session) :
    ((get_next_question sample s2).2).question_stats.questions_skipped =
      s2.question_stats.questions_skipped := by
  unfold get_next_question
  split
  · rfl
  · split
    · dsimp only
      split
      · rfl
      · split
        · split
          · exact nextFromRolePhase_skipped _
          · rfl
        · exact nextFromRolePhase_skipped _
    · exact nextFromRolePhase_skipped _

lemma get_next_question_snd_skipped (sample : List String → Nat → List String)
    {s2 : Session} {r : Except String (Option String)} {s3 : Session}
    (heq : get_next_question sample s2 = (r, s3)) :
    s3.question_stats.questions_skipped = s2.question_stats.questions_skipped := by
  have hx := get_next_question_skipped sample s2
  rw [heq] at hx
  exact hx

/-- C9: skip detection in process_answer is the exact membership of the
lower-cased, stripped answer in the fixed five-entry vocabulary; the
three concrete variants are skips, the substring-containing sentence is
not, and in every active state a process_answer call increments
questions_skipped exactly when the answer is a skip. -/
theorem C9_skip_detection :
    (∀ a : String, is_skip a = true ↔ pyStrip (pyLower a) ∈ skipVocab) ∧
    is_skip ("Skip") = true ∧
    is_skip (" skip ") = true ∧
    is_skip ("SKIP TO NEXT") = true ∧
    is_skip ("I will not skip this") = false ∧
    (∀ (sample : List String → Nat → List String) (rng : Nat)
       (po fo : Except String String) (s : Session) (a : String),
       (s.interview_state = InterviewState.in_progress ∨
        s.interview_state = InterviewState.role_based) →
       (process_answer sample rng po fo s a).2.question_stats.questions_skipped =
         s.question_stats.questions_skipped + (if is_skip a = true then 1 else 0)) := by
  refine ⟨?_, by decide, by decide, by decide, by decide, ?_⟩
  · intro a
    unfold is_skip List.contains
    exact List.elem_iff
  · intro sample rng po fo s a hstate
    unfold process_answer
    split
    · rename_i hcond
      rcases hstate with h | h <;> rw [h] at hcond <;> simp at hcond
    · split
      · rename_i hsk
        dsimp only
        split
        · split
          · rfl
          · rw [complete_interview_snd]
        · split
          · rename_i e s3 heq
            have hx := get_next_question_snd_skipped sample heq
            exact hx
          · rename_i nq s3 heq
            split
            · have hx := get_next_question_snd_skipped sample heq
              exact hx
            · rw [complete_interview_snd]
              dsimp only
              have hx := get_next_question_snd_skipped sample heq
              exact hx
      · rename_i hsk
        dsimp only
        split
        · split
          · rfl
          · rw [complete_interview_snd]
            rfl
        · split
          · rfl
          · split
            · rename_i e s3 heq
              have hx := get_next_question_snd_skipped sample heq
              exact hx
            · rename_i nq s3 heq
              split
              · have hx := get_next_question_snd_skipped sample heq
                exact hx
              · rw [complete_interview_snd]
                dsimp only
                have hx := get_next_question_snd_skipped sample heq
                exact hx

/-- C9 witness: the process_answer clause of the skip theorem at the
concrete Ben session with the answer Skip. -/
theorem C9_witness :
    (process_answer sampleTake 0 okOracle okOracle c3s2 ("Skip")).2.question_stats.questions_skipped =
      c3s2.question_stats.questions_skipped + (if is_skip ("Skip") = true then 1 else 0) :=
  C9_skip_detection.2.2.2.2.2 sampleTake 0 okOracle okOracle c3s2 ("Skip") (Or.inl (by decide))

/-! ## Plan structure lemmas (claims C4, C5, C6) -/

lemma mem_projectQuestionsAux {q : PlannedQuestion} :
    ∀ (i : Nat) (ps : List Project), q ∈ projectQuestionsAux i ps → q.qtype = "project" := by
  intro i ps
  induction ps generalizing i with
  | nil => intro h; simp [projectQuestionsAux] at h
  | cons p ps ih =>
      intro h
      simp only [projectQuestionsAux] at h
      rcases List.mem_cons.mp h with h | h
      · rw [h]
        rfl
      · exact ih (i + 1) h

lemma mem_experienceQuestionsAux {q : PlannedQuestion} :
    ∀ (b : Nat) (l : List Exp), q ∈ experienceQuestionsAux b l → q.qtype = "experience" := by
  intro b l
  induction l generalizing b with
  | nil => intro h; simp [experienceQuestionsAux] at h
  | cons e l ih =>
      intro h
      simp only [experienceQuestionsAux] at h
      rcases List.mem_cons.mp h with h | h
      · rw [h]
        rfl
      · exact ih (b + 1) h

lemma mem_skillsQuestionsAux {q : PlannedQuestion} :
    ∀ (b : Nat) (l : List String), q ∈ skillsQuestionsAux b l → q.qtype = "skills" := by
  intro b l
  induction l generalizing b with
  | nil => intro h; simp [skillsQuestionsAux] at h
  | cons t l ih =>
      intro h
      simp only [skillsQuestionsAux] at h
      rcases List.mem_cons.mp h with h | h
      · rw [h]
        rfl
      · exact ih (b + 1) h

lemma projectQuestionsAux_length : ∀ (i : Nat) (ps : List Project),
    (projectQuestionsAux i ps).length = ps.length := by
  intro i ps
  induction ps generalizing i with
  | nil => rfl
  | cons p ps ih => simp [projectQuestionsAux, ih (i + 1)]

lemma experienceQuestionsAux_length : ∀ (b : Nat) (l : List Exp),
    (experienceQuestionsAux b l).length = l.length := by
  intro b l
  induction l generalizing b with
  | nil => rfl
  | cons e l ih => simp [experienceQuestionsAux, ih (b + 1)]

lemma skillsQuestionsAux_length : ∀ (b : Nat) (l : List String),
    (skillsQuestionsAux b l).length = l.length := by
  intro b l
  induction l generalizing b with
  | nil => rfl
  | cons t l ih => simp [skillsQuestionsAux, ih (b + 1)]

lemma projectQuestionsAux_map_id : ∀ (i : Nat) (ps : List Project),
    (projectQuestionsAux i ps).map (fun q => q.id) = List.range' i ps.length := by
  intro i ps
  induction ps generalizing i with
  | nil => rfl
  | cons p ps ih =>
      simp only [projectQuestionsAux, List.map_cons, List.length_cons, List.range'_succ,
                 ih (i + 1)]
      rfl

lemma experienceQuestionsAux_map_id : ∀ (b : Nat) (l : List Exp),
    (experienceQuestionsAux b l).map (fun q => q.id) = List.range' (b + 1) l.length := by
  intro b l
  induction l generalizing b with
  | nil => rfl
  | cons e l ih =>
      simp only [experienceQuestionsAux, List.map_cons, List.length_cons, List.range'_succ,
                 ih (b + 1)]
      rfl

lemma skillsQuestionsAux_map_id : ∀ (b : Nat) (l : List String),
    (skillsQuestionsAux b l).map (fun q => q.id) = List.range' (b + 1) l.length := by
  intro b l
  induction l generalizing b with
  | nil => rfl
  | cons t l ih =>
      simp only [skillsQuestionsAux, List.map_cons, List.length_cons, List.range'_succ,
                 ih (b + 1)]
      rfl

lemma projectQuestionsAux_map_data : ∀ (i : Nat) (ps : List Project),
    (projectQuestionsAux i ps).map (fun q => q.project_data) = ps.map some := by
  intro i ps
  induction ps generalizing i with
  | nil => rfl
  | cons p ps ih =>
      simp only [projectQuestionsAux, List.map_cons, ih (i + 1)]
      rfl

lemma projectQuestionsAux_filter_project (i : Nat) (ps : List Project) :
    (projectQuestionsAux i ps).filter (fun q => q.qtype == "project") =
      projectQuestionsAux i ps :=
  List.filter_eq_self.mpr (fun a ha => by simp [mem_projectQuestionsAux i ps ha])

lemma projectQuestionsAux_filter_skills (i : Nat) (ps : List Project) :
    (projectQuestionsAux i ps).filter (fun q => q.qtype == "skills") = [] :=
  List.filter_eq_nil_iff.mpr (fun a ha => by simp [mem_projectQuestionsAux i ps ha])

lemma projectQuestionsAux_filter_experience (i : Nat) (ps : List Project) :
    (projectQuestionsAux i ps).filter (fun q => q.qtype == "experience") = [] :=
  List.filter_eq_nil_iff.mpr (fun a ha => by simp [mem_projectQuestionsAux i ps ha])

lemma experienceQuestionsAux_filter_experience (b : Nat) (l : List Exp) :
    (experienceQuestionsAux b l).filter (fun q => q.qtype == "experience") =
      experienceQuestionsAux b l :=
  List.filter_eq_self.mpr (fun a ha => by simp [mem_experienceQuestionsAux b l ha])

lemma experienceQuestionsAux_filter_project (b : Nat) (l : List Exp) :
    (experienceQuestionsAux b l).filter (fun q => q.qtype == "project") = [] :=
  List.filter_eq_nil_iff.mpr (fun a ha => by simp [mem_experienceQuestionsAux b l ha])

lemma experienceQuestionsAux_filter_skills (b : Nat) (l : List Exp) :
    (experienceQuestionsAux b l).filter (fun q => q.qtype == "skills") = [] :=
  List.filter_eq_nil_iff.mpr (fun a ha => by simp [mem_experienceQuestionsAux b l ha])

lemma skillsQuestionsAux_filter_skills (b : Nat) (l : List String) :
    (skillsQuestionsAux b l).filter (fun q => q.qtype == "skills") =
      skillsQuestionsAux b l :=
  List.filter_eq_self.mpr (fun a ha => by simp [mem_skillsQuestionsAux b l ha])

lemma skillsQuestionsAux_filter_project (b : Nat) (l : List String) :
    (skillsQuestionsAux b l).filter (fun q => q.qtype == "project") = [] :=
  List.filter_eq_nil_iff.mpr (fun a ha => by simp [mem_skillsQuestionsAux b l ha])

lemma skillsQuestionsAux_filter_experience (b : Nat) (l : List String) :
    (skillsQuestionsAux b l).filter (fun q => q.qtype == "experience") = [] :=
  List.filter_eq_nil_iff.mpr (fun a ha => by simp [mem_skillsQuestionsAux b l ha])

lemma plan_filter_project (resume : ResumeData) :
    (generate_question_plan resume).filter (fun q => q.qtype == "project") =
      projectQuestionsAux 3 (resume.projects.take 3) := by
  unfold generate_question_plan
  dsimp only
  split <;>
    simp [List.filter_append, introQuestion, hobbiesQuestion,
          projectQuestionsAux_filter_project, skillsQuestionsAux_filter_project,
          experienceQuestionsAux_filter_project]

lemma plan_map_id (resume : ResumeData) :
    (generate_question_plan resume).map (fun q => q.id) =
      List.range' 1 (generate_question_plan resume).length := by
  unfold generate_question_plan
  dsimp only
  split
  · simp only [List.map_append, List.map_cons, List.map_nil, projectQuestionsAux_map_id,
               skillsQuestionsAux_map_id, List.length_append, List.length_cons,
               List.length_nil, projectQuestionsAux_length, skillsQuestionsAux_length,
               introQuestion, hobbiesQuestion]
    have hm1 : (0 + 1 + 1 + (List.take 3 resume.projects).length + 1) =
        3 + (List.take 3 resume.projects).length := by omega
    have hm2 : (0 + 1 + 1 + (List.take 3 resume.projects).length +
        (List.take 2 skill_questions).length) =
        ((List.take 3 resume.projects).length + (List.take 2 skill_questions).length + 1) + 1 := by
      omega
    rw [hm1, hm2, List.append_assoc, List.range'_append_1, List.range'_succ,
        List.range'_succ]
    have hfin : ((List.take 2 skill_questions).length + (List.take 3 resume.projects).length) =
        ((List.take 3 resume.projects).length + (List.take 2 skill_questions).length) := by
      omega
    rw [hfin]
    rfl
  · simp only [List.map_append, List.map_cons, List.map_nil, projectQuestionsAux_map_id,
               experienceQuestionsAux_map_id, List.length_append, List.length_cons,
               List.length_nil, projectQuestionsAux_length, experienceQuestionsAux_length,
               introQuestion, hobbiesQuestion]
    have hm1 : (0 + 1 + 1 + (List.take 3 resume.projects).length + 1) =
        3 + (List.take 3 resume.projects).length := by omega
    have hm2 : (0 + 1 + 1 + (List.take 3 resume.projects).length +
        (List.take 2 (valid_experience resume.experience)).length) =
        ((List.take 3 resume.projects).length +
          (List.take 2 (valid_experience resume.experience)).length + 1) + 1 := by
      omega
    rw [hm1, hm2, List.append_assoc, List.range'_append_1, List.range'_succ,
        List.range'_succ]
    have hfin : ((List.take 2 (valid_experience resume.experience)).length +
        (List.take 3 resume.projects).length) =
        ((List.take 3 resume.projects).length +
          (List.take 2 (valid_experience resume.experience)).length) := by
      omega
    rw [hfin]
    rfl

/-! ## Claim C4 -/

/-- C4: the analysis process_answer actually invokes (the second, pure
definition of _analyze_answer, which shadows the LLM-calling first
definition) returns needs_followup = true exactly when the question
type is the string projects with an answer over 20 words containing
challenge, or the type is experience with an answer over 15 words; and
since no question the planner emits carries the type projects, a
question from a plan can only trigger a follow-up if its type is
experience. -/
theorem C4_analysis_characterization :
    (∀ (q : PlannedQuestion) (ans : String),
        (analyze_answer q ans).needs_followup = true ↔
          ((q.qtype = "projects" ∧ 20 < pyWordCount ans ∧
              strContains (pyLower ans) ("challenge") = true) ∨
           (q.qtype = "experience" ∧ 15 < pyWordCount ans))) ∧
    (∀ (resume : ResumeData) (q : PlannedQuestion), q ∈ generate_question_plan resume →
        ∀ ans : String, (analyze_answer q ans).needs_followup = true →
          q.qtype = "experience") := by
  have hchar : ∀ (q : PlannedQuestion) (ans : String),
      (analyze_answer q ans).needs_followup = true ↔
        ((q.qtype = "projects" ∧ 20 < pyWordCount ans ∧
            strContains (pyLower ans) ("challenge") = true) ∨
         (q.qtype = "experience" ∧ 15 < pyWordCount ans)) := by
    intro q ans
    unfold analyze_answer
    dsimp only
    constructor
    · intro h
      by_cases c1 : (q.qtype == "projects" && decide (pyWordCount ans > 20) &&
          strContains (pyLower ans) ("challenge")) = true
      · left
        simp only [Bool.and_eq_true, beq_iff_eq, decide_eq_true_eq] at c1
        exact ⟨c1.1.1, c1.1.2, c1.2⟩
      · rw [if_neg c1] at h
        by_cases c2 : (q.qtype == "experience" && decide (pyWordCount ans > 15)) = true
        · right
          simp only [Bool.and_eq_true, beq_iff_eq, decide_eq_true_eq] at c2
          exact c2
        · rw [if_neg c2] at h
          simp at h
    · intro h
      rcases h with ⟨hty, h20, hch⟩ | ⟨hty, h15⟩
      · have hc1 : (q.qtype == "projects" && decide (pyWordCount ans > 20) &&
            strContains (pyLower ans) ("challenge")) = true := by
          simp only [Bool.and_eq_true, beq_iff_eq, decide_eq_true_eq]
          exact ⟨⟨hty, h20⟩, hch⟩
        rw [if_pos hc1]
      · have hc1 : ¬ ((q.qtype == "projects" && decide (pyWordCount ans > 20) &&
            strContains (pyLower ans) ("challenge")) = true) := by
          simp [hty]
        have hc2 : (q.qtype == "experience" && decide (pyWordCount ans > 15)) = true := by
          simp only [Bool.and_eq_true, beq_iff_eq, decide_eq_true_eq]
          exact ⟨hty, h15⟩
        rw [if_neg hc1, if_pos hc2]
  have hplan : ∀ (resume : ResumeData) (q : PlannedQuestion),
      q ∈ generate_question_plan resume →
      q.qtype = "introduction" ∨ q.qtype = "hobbies" ∨ q.qtype = "project" ∨
        q.qtype = "experience" ∨ q.qtype = "skills" := by
    intro resume q hq
    unfold generate_question_plan at hq
    dsimp only at hq
    split at hq <;>
      rcases List.mem_append.mp hq with hq | hq
    · rcases List.mem_append.mp hq with hq | hq
      · rcases List.mem_cons.mp hq with hq | hq
        · exact Or.inl (by rw [hq]; rfl)
        · rcases List.mem_cons.mp hq with hq | hq
          · exact Or.inr (Or.inl (by rw [hq]; rfl))
          · simp at hq
      · exact Or.inr (Or.inr (Or.inl (mem_projectQuestionsAux _ _ hq)))
    · exact Or.inr (Or.inr (Or.inr (Or.inr (mem_skillsQuestionsAux _ _ hq))))
    · rcases List.mem_append.mp hq with hq | hq
      · rcases List.mem_cons.mp hq with hq | hq
        · exact Or.inl (by rw [hq]; rfl)
        · rcases List.mem_cons.mp hq with hq | hq
          · exact Or.inr (Or.inl (by rw [hq]; rfl))
          · simp at hq
      · exact Or.inr (Or.inr (Or.inl (mem_projectQuestionsAux _ _ hq)))
    · exact Or.inr (Or.inr (Or.inr (Or.inl (mem_experienceQuestionsAux _ _ hq))))
  refine ⟨hchar, ?_⟩
  intro resume q hq ans hfu
  rcases (hchar q ans).mp hfu with ⟨hty, _, _⟩ | ⟨hty, _⟩
  · rcases hplan resume q hq with h | h | h | h | h <;> rw [hty] at h <;> simp at h
  · exact hty

/-- The single experience record of the Ben resume. -/
def benExp : Exp :=
  { title := some ("Software Engineer"), company := some ("Acme Corporation"),
    duration := some ("2 years") }

/-- C4 witness: the experience question of the Ben plan, whose
membership and long answer instantiate the plan-level clause. -/
theorem C4_witness :
    (mkExperienceQuestion 3 benExp).qtype = "experience" :=
  C4_analysis_characterization.2 c3resume (mkExperienceQuestion 3 benExp)
    (by decide) longAnswer (by decide)

/-! ## Claim C5 -/

/-- C5: the experience and skills plan steps are mutually exclusive:
with no experience entry surviving the employment filter the plan holds
exactly 2 skills questions and no experience question, and with at
least one survivor it holds exactly min(survivors, 2) experience
questions and no skills question. -/
theorem C5_experience_skills_exclusive (resume : ResumeData) :
    if valid_experience resume.experience = [] then
      ((generate_question_plan resume).filter (fun q => q.qtype == "skills")).length = 2 ∧
      ((generate_question_plan resume).filter (fun q => q.qtype == "experience")).length = 0
    else
      ((generate_question_plan resume).filter (fun q => q.qtype == "experience")).length =
        min (valid_experience resume.experience).length 2 ∧
      ((generate_question_plan resume).filter (fun q => q.qtype == "skills")).length = 0 := by
  split
  · rename_i hve
    have hie : (valid_experience resume.experience).isEmpty = true := by
      rw [List.isEmpty_iff]
      exact hve
    constructor
    · unfold generate_question_plan
      dsimp only
      rw [if_pos hie]
      simp [List.filter_append, introQuestion, hobbiesQuestion,
            projectQuestionsAux_filter_skills, skillsQuestionsAux_filter_skills,
            skillsQuestionsAux_length, skill_questions]
    · unfold generate_question_plan
      dsimp only
      rw [if_pos hie]
      simp [List.filter_append, introQuestion, hobbiesQuestion,
            projectQuestionsAux_filter_experience, skillsQuestionsAux_filter_experience]
  · rename_i hve
    have hie : ¬ ((valid_experience resume.experience).isEmpty = true) := by
      rw [List.isEmpty_iff]
      exact hve
    constructor
    · unfold generate_question_plan
      dsimp only
      rw [if_neg hie]
      simp [List.filter_append, introQuestion, hobbiesQuestion,
            projectQuestionsAux_filter_experience, experienceQuestionsAux_filter_experience,
            experienceQuestionsAux_length, List.length_take]
      omega
    · unfold generate_question_plan
      dsimp only
      rw [if_neg hie]
      simp [List.filter_append, introQuestion, hobbiesQuestion,
            projectQuestionsAux_filter_skills, experienceQuestionsAux_filter_skills]

/-! ## Claim C6 -/

/-- C6: the plan contains exactly min(p, 3) project-type questions; in
resume order each carries its originating project record as supporting
data; and the ids of the whole plan are assigned by insertion order
1..k without gaps. -/
theorem C6_project_questions (resume : ResumeData) :
    ((generate_question_plan resume).filter (fun q => q.qtype == "project")).length =
      min resume.projects.length 3 ∧
    ((generate_question_plan resume).filter (fun q => q.qtype == "project")).map
        (fun q => q.project_data) = (resume.projects.take 3).map some ∧
    (generate_question_plan resume).map (fun q => q.id) =
      List.range' 1 (generate_question_plan resume).length := by
  refine ⟨?_, ?_, ?_⟩
  · rw [plan_filter_project, projectQuestionsAux_length, List.length_take]
    omega
  · rw [plan_filter_project, projectQuestionsAux_map_data]
  · exact plan_map_id resume

/-! ## Claim C7 -/

lemma runSubmits_exact (qs : List String) :
    ∀ (l : List String) (p : RolePhase), p.questions = qs → l ≠ [] →
      p.current_question_index + l.length = qs.length →
      (runSubmits p l).1 = List.replicate (l.length - 1) true ++ [false] ∧
      (runSubmits p l).2.questions = qs ∧
      (runSubmits p l).2.current_question_index = qs.length ∧
      (runSubmits p l).2.completed = true := by
  intro l
  induction l with
  | nil => intro p _ hne _; exact absurd rfl hne
  | cons a rest ih =>
      intro p hq hne hlen
      simp only [List.length_cons] at hlen
      have hlt : p.current_question_index < p.questions.length := by
        rw [hq]
        omega
      unfold runSubmits submit_answer
      rw [if_neg (by omega : ¬ p.current_question_index ≥ p.questions.length)]
      dsimp only
      rcases rest with _ | ⟨b, rest2⟩
      · -- last answer: completion
        simp only [List.length_nil] at hlen
        have hge : p.current_question_index + 1 ≥ p.questions.length := by
          rw [hq]
          omega
        rw [if_pos hge]
        dsimp only
        unfold runSubmits
        refine ⟨rfl, hq, ?_, rfl⟩
        dsimp only
        omega
      · -- more answers remain
        simp only [List.length_cons] at hlen
        have hlt2 : ¬ (p.current_question_index + 1 ≥ p.questions.length) := by
          rw [hq]
          omega
        rw [if_neg hlt2]
        dsimp only
        have hrec := ih { p with
            answers := p.answers ++
              [RoleAnswer.mk (p.questions.getD p.current_question_index (""))
                (pyStrip a) (p.current_question_index + 1)],
            current_question_index := p.current_question_index + 1 }
          (by exact hq) (by simp) (by dsimp only; simp only [List.length_cons]; omega)
        refine ⟨?_, hrec.2.1, hrec.2.2.1, hrec.2.2.2⟩
        rw [hrec.1]
        simp [List.replicate_succ]
  
lemma submit_answer_after_end (p : RolePhase)
    (hend : p.questions.length ≤ p.current_question_index) (a : String) :
    submit_answer p a = (false, p) := by
  unfold submit_answer
  rw [if_pos (by omega : p.current_question_index ≥ p.questions.length)]

/-- C7: a phase built with n >= 1 questions answers true exactly n-1
times then false once over its first n submit_answer calls; after the
false return the phase is completed and get_current_question is None;
and every later submit_answer call returns false without changing the
phase. -/
theorem C7_phase_protocol (sample : List String → Nat → List String)
    (role : String) (cnt : Nat) (p0 : RolePhase) (n : Nat) (answers : List String)
    (hmk : mkRolePhase sample role cnt = Except.ok p0)
    (hn : p0.questions.length = n) (h1 : 1 ≤ n) (hlen : n ≤ answers.length) :
    (runSubmits p0 (answers.take n)).1 = List.replicate (n - 1) true ++ [false] ∧
    (runSubmits p0 (answers.take n)).1.count true = n - 1 ∧
    (runSubmits p0 (answers.take n)).1.count false = 1 ∧
    (runSubmits p0 (answers.take n)).2.completed = true ∧
    get_current_question (runSubmits p0 (answers.take n)).2 = none ∧
    (∀ a, submit_answer (runSubmits p0 (answers.take n)).2 a =
      (false, (runSubmits p0 (answers.take n)).2)) := by
  have hc0 : p0.current_question_index = 0 := by
    unfold mkRolePhase at hmk
    rcases hgr : get_random_questions sample role cnt with e | qs <;> rw [hgr] at hmk
    · simp at hmk
    · simp only [Except.ok.injEq] at hmk
      rw [← hmk]
  have htk : (answers.take n).length = n := by
    rw [List.length_take]
    omega
  have hne : answers.take n ≠ [] := by
    intro hco
    rw [hco] at htk
    simp at htk
    omega
  obtain ⟨hout, hqs, hcur, hcomp⟩ :=
    runSubmits_exact p0.questions (answers.take n) p0 rfl hne (by rw [htk, hn, hc0]; omega)
  have hcur2 : (runSubmits p0 (answers.take n)).2.questions.length ≤
      (runSubmits p0 (answers.take n)).2.current_question_index := by
    rw [hqs, hcur]
  rw [htk] at hout
  refine ⟨hout, ?_, ?_, hcomp, ?_, ?_⟩
  · rw [hout]
    simp
  · rw [hout]
    simp [List.count_replicate]
  · unfold get_current_question
    rw [if_pos (by omega)]
  · intro a
    exact submit_answer_after_end _ hcur2 a

/-- The phase the deterministic sampler builds for python_developer
with four questions. -/
def c7phase : RolePhase :=
  { role := "python_developer", question_count := 4,
    questions := pythonQuestions.take 4, current_question_index := 0,
    answers := [], completed := false }

/-- C7 witness: the protocol at a concrete four-question
python_developer phase and four concrete answers. -/
theorem C7_witness :
    (runSubmits c7phase (["a", "b", "c", "d"].take 4)).1 =
      List.replicate (4 - 1) true ++ [false] :=
  (C7_phase_protocol sampleTake ("python_developer") 4 c7phase 4 (["a", "b", "c", "d"])
    (by rfl) (by decide) (by decide) (by decide)).1

/-! ## Claim C8 -/

/-- The contract of random.sample that the code relies on: when k is at
most the population size, the draw has length k, hits only population
members, and repeats none of them provided the population has no
duplicates. -/
def SampleSpec (sample : List String → Nat → List String) : Prop :=
  ∀ (pop : List String) (k : Nat), k ≤ pop.length →
    (sample pop k).length = k ∧
    (pop.Nodup → (sample pop k).Nodup) ∧
    (∀ q ∈ sample pop k, q ∈ pop)

lemma lookup_role_cases (role : String) (qs : List String)
    (h : ROLE_QUESTIONS.lookup role = some qs) :
    qs = pythonQuestions ∨ qs = javaQuestions ∨ qs = mernQuestions := by
  unfold ROLE_QUESTIONS at h
  simp only [List.lookup] at h
  split at h
  · exact Or.inl (by simpa using h.symm)
  · split at h
    · exact Or.inr (Or.inl (by simpa using h.symm))
    · split at h
      · exact Or.inr (Or.inr (by simpa using h.symm))
      · simp at h

/-- C8: for any sampler honoring the random.sample contract, drawing 4
questions for a recognized role yields 4 pairwise-distinct questions
from that role's catalogue; a request of at least the catalogue size
returns the whole duplicate-free catalogue; and an unrecognized role
raises (ValueError, modelled as Except.error). -/
theorem C8_sampling (sample : List String → Nat → List String) (hs : SampleSpec sample) :
    (∀ role qs, ROLE_QUESTIONS.lookup role = some qs →
      (∃ l, get_random_questions sample role 4 = Except.ok l ∧
        l.length = 4 ∧ l.Nodup ∧ ∀ q ∈ l, q ∈ qs) ∧
      (∀ c, qs.length ≤ c →
        get_random_questions sample role c = Except.ok qs ∧ qs.Nodup)) ∧
    (∀ role, ROLE_QUESTIONS.lookup role = none →
      ∃ e, get_random_questions sample role 4 = Except.error e) := by
  constructor
  · intro role qs hlk
    have hten : qs.length = 10 ∧ qs.Nodup := by
      rcases lookup_role_cases role qs hlk with h | h | h <;> rw [h] <;>
        exact ⟨by decide, by decide⟩
    constructor
    · unfold get_random_questions
      rw [hlk]
      dsimp only
      rw [if_neg (by have h10 := hten.1; omega)]
      obtain ⟨hlen, hnd, hmem⟩ := hs qs 4 (by omega)
      exact ⟨sample qs 4, rfl, hlen, hnd hten.2, hmem⟩
    · intro c hc
      unfold get_random_questions
      rw [hlk]
      dsimp only
      rw [if_pos (by omega)]
      exact ⟨rfl, hten.2⟩
  · intro role hlk
    unfold get_random_questions
    rw [hlk]
    exact ⟨_, rfl⟩

/-- C8 witness: the sampling contract instantiated with the
deterministic take-sampler at the python_developer catalogue. -/
theorem C8_witness :
    ∃ l, get_random_questions sampleTake ("python_developer") 4 = Except.ok l ∧
      l.length = 4 ∧ l.Nodup ∧ ∀ q ∈ l, q ∈ pythonQuestions := by
  have hs : SampleSpec sampleTake := by
    intro pop k hk
    refine ⟨by simp [sampleTake]; omega, fun hnd => List.Nodup.sublist (List.take_sublist k pop) hnd, ?_⟩
    intro q hq
    exact List.mem_of_mem_take hq
  exact ((C8_sampling sampleTake hs).1 ("python_developer") pythonQuestions (by rfl)).1
